import Mathlib

/-!
Verification of the Ministoreservices request pipeline.

The development embeds, as Lean definitions:
  * the product resource handlers of `src/unnamed/part_000`
    (`createProduct`, `updateProduct`, `deleteProduct`, `getProducts`,
    `getProduct`, `getProductsByTerm`);
  * the route table and rate-limiter configuration of
    `src/unnamed/part_001` (`apiLimiter`, the `router.<method>` calls);
  * the external collaborators the spec treats as black boxes
    (the Prisma store, JavaScript `Number` coercion, the
    `express-rate-limit` fixed-window counter and Express dispatch),
    modelled from the spec's interface descriptions.

Machine state is passed explicitly; fallible store calls return
`Except`.  A handler value `Except.ok (resp, st)` is a serialized HTTP
response (plus the store after the call); `Except.error e` is a store
failure that escaped the handler (no surrounding try/catch).
-/

/-- Errors the store can raise.  `notFound` is Prisma's
"record required but not found" error raised by `update`/`delete` on an
absent key; `badKey` is the validation error raised when the key is
`NaN`; `other` stands for any further store-layer failure. -/
inductive StoreErr where
  | notFound
  | badKey
  | other (code : Nat)
deriving DecidableEq, Repr

/-- A product record, after the `products` schema of the source
(`product_id`, `name`, `description`, `price`, `category`,
`image_url`).  Price is carried opaquely; the handlers never compute
with it, so it is modelled as an integer number of cents. -/
structure Product where
  product_id : Int
  name : String
  description : String
  price : Int
  category : String
  image_url : String
deriving DecidableEq, Repr

/-- Body of an HTTP response as the handlers build it: a single record,
a list of records, a JSON message object, or a serialized store error. -/
inductive Body where
  | record (p : Product)
  | list (l : List Product)
  | message (s : String)
  | err (e : StoreErr)
deriving DecidableEq, Repr

/-- An HTTP response: status code plus JSON body. -/
structure Response where
  status : Nat
  body : Body
deriving DecidableEq, Repr

deriving instance DecidableEq for Except

/-- Modelled from the spec: the external Prisma store, "treated as a
black-box store" with interface `create / update / delete / findUnique /
findMany`.  `records` is its current table of products; `fail`, when
set, makes every call fail with that error (an infrastructure failure,
the spec's StoreFailure). -/
structure Store where
  records : List Product
  fail : Option StoreErr
deriving DecidableEq, Repr

/-- Reads a decimal digit string left to right, accumulating its value;
any non-digit character makes the whole string non-numeric. -/
def decNatAux : List Char → Nat → Option Nat
  | [], acc => some acc
  | c :: cs, acc =>
    if c.isDigit then decNatAux cs (acc * 10 + (c.toNat - 48)) else none

/-- Value of a non-empty decimal digit string. -/
def decNat (l : List Char) : Option Nat :=
  match l with
  | [] => none
  | _ :: _ => decNatAux l 0

/-- Modelled from the spec: JavaScript `Number` coercion of a string
("identifiers are numeric in path parameters, coerced from string path
segments").  `some n` is a numeric value, `none` is `NaN`: a decimal
integer string (optionally negative) coerces to its value, any other
string to `NaN`. -/
def jsNumber (s : String) : Option Int :=
  match s.toList with
  | '-' :: rest => (decNat rest).map (fun n => -(n : Int))
  | l => (decNat l).map (fun n => (n : Int))

/-- Modelled from the spec: `findUnique(entity, key) -> Record | None`.
A `NaN` key is rejected by the store's input validation. -/
def Store.findUnique (st : Store) (key : Option Int) :
    Except StoreErr (Option Product) :=
  match st.fail with
  | some e => .error e
  | none =>
    match key with
    | none => .error .badKey
    | some k => .ok (st.records.find? (fun p => p.product_id == k))

/-- Modelled from the spec: `create(entity, fields) -> Record | Error`.
The source sends `product_id` itself, so a duplicate key is a store
error (Prisma's unique-constraint failure); otherwise the record is
appended and returned. -/
def Store.create (st : Store) (p : Product) :
    Except StoreErr (Store × Product) :=
  match st.fail with
  | some e => .error e
  | none =>
    if st.records.any (fun q => q.product_id == p.product_id) then
      .error (.other 2002)
    else
      .ok ({ st with records := st.records ++ [p] }, p)

/-- Modelled from the spec: `update(entity, key, fields) ->
Record | Error(NotFound)`.  Replaces the five data fields of the first
record with the given key; an absent key raises `notFound`. -/
def Store.update (st : Store) (key : Option Int) (name description : String)
    (price : Int) (category image_url : String) :
    Except StoreErr (Store × Product) :=
  match st.fail with
  | some e => .error e
  | none =>
    match key with
    | none => .error .badKey
    | some k =>
      match st.records.find? (fun p => p.product_id == k) with
      | none => .error .notFound
      | some p =>
        let p' : Product :=
          ⟨p.product_id, name, description, price, category, image_url⟩
        .ok ({ st with
                records := st.records.map
                  (fun q => if q.product_id == k then p' else q) }, p')

/-- Modelled from the spec: `delete(entity, key) ->
Record | Error(NotFound)`. -/
def Store.delete (st : Store) (key : Option Int) :
    Except StoreErr (Store × Product) :=
  match st.fail with
  | some e => .error e
  | none =>
    match key with
    | none => .error .badKey
    | some k =>
      match st.records.find? (fun p => p.product_id == k) with
      | none => .error .notFound
      | some p =>
        .ok ({ st with
                records := st.records.filter
                  (fun q => !(q.product_id == k)) }, p)

/-- Modelled from the spec: `findMany(entity, filter)` with no filter:
every record. -/
def Store.findMany (st : Store) : Except StoreErr (List Product) :=
  match st.fail with
  | some e => .error e
  | none => .ok st.records

/-- Decides whether the pattern is a leading block of the list. -/
def listHasPre : List Char → List Char → Bool
  | [], _ => true
  | _ :: _, [] => false
  | c :: cs, d :: ds => c == d && listHasPre cs ds

/-- Decides whether the pattern occurs contiguously inside the list. -/
def hasSub (pat : List Char) : List Char → Bool
  | [] => listHasPre pat []
  | c :: cs => listHasPre pat (c :: cs) || hasSub pat cs

/-- The store's `contains` string filter: `term` occurs as a contiguous
substring of `s` (case-sensitive, the store's default collation). -/
def strContains (s term : String) : Bool :=
  hasSub term.toList s.toList

/-- The `OR [ name contains term, category contains term ]` filter the
source passes to `findMany` in `getProductsByTerm`. -/
def productMatches (term : String) (p : Product) : Bool :=
  strContains p.name term || strContains p.category term

/-- Modelled from the spec: `findMany(entity, filter)` with the
source's `OR`-of-`contains` filter on `name` and `category`. -/
def Store.findManyByTerm (st : Store) (term : String) :
    Except StoreErr (List Product) :=
  match st.fail with
  | some e => .error e
  | none => .ok (st.records.filter (productMatches term))

/-- Request body of `POST /products` as destructured by the source:
`product_id, name, description, price, category, image_url`. -/
structure CreateBody where
  product_id : Int
  name : String
  description : String
  price : Int
  category : String
  image_url : String
deriving DecidableEq, Repr

/-- The record the store builds from a create body. -/
def mkProduct (b : CreateBody) : Product :=
  ⟨b.product_id, b.name, b.description, b.price, b.category, b.image_url⟩

/-- Request body of `PUT /products` as destructured by the source:
`id, name, description, price, category, image_url`. -/
structure UpdateBody where
  id : String
  name : String
  description : String
  price : Int
  category : String
  image_url : String
deriving DecidableEq, Repr

/-- Embeds `createProduct` of `src/unnamed/part_000` (lines 4-21):
`prisma.products.create` inside try/catch; success serializes the
record with 200, any store error is caught and serialized with 500. -/
def createProduct (body : CreateBody) (st : Store) :
    Except StoreErr (Response × Store) :=
  match Store.create st (mkProduct body) with
  | .ok (st', prod) => .ok (⟨200, .record prod⟩, st')
  | .error e => .ok (⟨500, .err e⟩, st)

/-- Embeds `updateProduct` of `src/unnamed/part_000` (lines 24-41):
`prisma.products.update` keyed by `Number(id)` inside try/catch; every
store error — the NotFound error for an absent key included — is caught
and serialized with 500.  There is no 404 branch. -/
def updateProduct (body : UpdateBody) (st : Store) :
    Except StoreErr (Response × Store) :=
  match Store.update st (jsNumber body.id) body.name body.description
      body.price body.category body.image_url with
  | .ok (st', cust) => .ok (⟨200, .record cust⟩, st')
  | .error e => .ok (⟨500, .err e⟩, st)

/-- Embeds `deleteProduct` of `src/unnamed/part_000` (lines 43-55):
`prisma.products.delete` keyed by `Number(req.params.id)` inside
try/catch; every store error is caught and serialized with 500.
There is no 404 branch. -/
def deleteProduct (id : String) (st : Store) :
    Except StoreErr (Response × Store) :=
  match Store.delete st (jsNumber id) with
  | .ok (st', cust) => .ok (⟨200, .record cust⟩, st')
  | .error e => .ok (⟨500, .err e⟩, st)

/-- Embeds `getProducts` of `src/unnamed/part_000` (lines 57-60):
`prisma.products.findMany()` with NO try/catch — a store failure is not
caught and escapes the handler as `Except.error`. -/
def getProducts (st : Store) : Except StoreErr (Response × Store) :=
  match Store.findMany st with
  | .ok custs => .ok (⟨200, .list custs⟩, st)
  | .error e => .error e

/-- Embeds `getProduct` of `src/unnamed/part_000` (lines 62-76):
`prisma.products.findUnique` keyed by `Number(req.params.id)` inside
try/catch; a null result yields 404 with a message, a record yields
200, a store error yields 500. -/
def getProduct (id : String) (st : Store) :
    Except StoreErr (Response × Store) :=
  match Store.findUnique st (jsNumber id) with
  | .ok none => .ok (⟨404, .message "Product not found!"⟩, st)
  | .ok (some cust) => .ok (⟨200, .record cust⟩, st)
  | .error e => .ok (⟨500, .err e⟩, st)

/-- Embeds `getProductsByTerm` of `src/unnamed/part_000`
(lines 78-105): `findMany` with the `OR`-of-`contains` filter inside
try/catch; an empty result yields 404 with a message, a non-empty one
yields the list with 200, a store error yields 500. -/
def getProductsByTerm (term : String) (st : Store) :
    Except StoreErr (Response × Store) :=
  match Store.findManyByTerm st term with
  | .ok custs =>
    if custs.isEmpty then .ok (⟨404, .message "Product not found!"⟩, st)
    else .ok (⟨200, .list custs⟩, st)
  | .error e => .ok (⟨500, .err e⟩, st)

/-- Configuration of the rate limiter, after the options object passed
to `rateLimit` in the source: `windowMs` and `max`. -/
structure RateConfig where
  windowMs : Nat
  max : Nat
deriving DecidableEq, Repr

/-- The `apiLimiter` configuration of `src/unnamed/part_001`
(lines 2-7): a three-minute window and at most 10 requests. -/
def apiLimiterCfg : RateConfig := ⟨1000 * 60 * 3, 10⟩

/-- The window the limiter keeps per client key: start timestamp and
request count. -/
structure Window where
  start : Nat
  count : Nat
deriving DecidableEq, Repr

/-- The limiter's shared state: one window per client key. -/
abbrev WindowMap := List (String × Window)

/-- Outcome of one rate-limit check.  `Deny` carries the retry-after
hint (remaining window time). -/
inductive Decision where
  | Allow
  | Deny (retryAfter : Nat)
deriving DecidableEq, Repr

/-- Replaces the window stored for a key, or appends one. -/
def setWin (m : WindowMap) (k : String) (w : Window) : WindowMap :=
  match m with
  | [] => [(k, w)]
  | (k', w') :: rest =>
    if k' = k then (k, w) :: rest else (k', w') :: setWin rest k w

/-- Modelled from the spec: the fixed-window counter of the external
`express-rate-limit` package, configured by `apiLimiter` in the source.
"On each check: if no window exists for clientKey or the current time
≥ window start + duration, start a new window (count = 1, start = now),
Allow.  Otherwise increment count; if count > max, Deny with a
retry-after hint equal to remaining window time; else Allow." -/
def check (cfg : RateConfig) (m : WindowMap) (key : String) (now : Nat) :
    Decision × WindowMap :=
  match List.lookup key m with
  | none => (.Allow, setWin m key ⟨now, 1⟩)
  | some w =>
    if w.start + cfg.windowMs ≤ now then
      (.Allow, setWin m key ⟨now, 1⟩)
    else
      let c := w.count + 1
      if cfg.max < c then
        (.Deny (w.start + cfg.windowMs - now), setWin m key ⟨w.start, c⟩)
      else
        (.Allow, setWin m key ⟨w.start, c⟩)

/-- Limiter state after the first `n` checks of a run in which the
`j`-th request (0-based) from `key` arrives at time `times j`, starting
from an empty map. -/
def stateAfter (cfg : RateConfig) (key : String) (times : Nat → Nat) :
    Nat → WindowMap
  | 0 => []
  | n + 1 => (check cfg (stateAfter cfg key times n) key (times n)).2

/-- Decision the limiter takes for the `i`-th request (1-based) of such
a run. -/
def nthDecision (cfg : RateConfig) (key : String) (times : Nat → Nat)
    (i : Nat) : Decision :=
  (check cfg (stateAfter cfg key times (i - 1)) key (times (i - 1))).1

/-- HTTP method of a route, after the `router.<method>` calls of the
source. -/
inductive Method where
  | GET
  | POST
  | PUT
  | DELETE
deriving DecidableEq, Repr

/-- One segment of a path pattern: a literal, or a named parameter such
as `:id`. -/
inductive Seg where
  | lit (s : String)
  | param (s : String)
deriving DecidableEq, Repr

/-- Tags for the two middlewares attached to routes in the source. -/
inductive MwTag where
  | apiLimiter
  | verifyToken
deriving DecidableEq, Repr

/-- Tags for the terminal handlers the source's route table names. -/
inductive HTag where
  | createOrder
  | createProduct
  | updateProduct
  | deleteProduct
  | getProduct
  | getProducts
  | getProductsByTerm
  | createCustomer
  | updateCustomer
  | deleteCustomer
  | getCustomer
  | getCustomers
  | getCustomersByTerm
  | createUser
  | login
  | logout
deriving DecidableEq, Repr

/-- A registered route: method, path pattern, ordered middleware list,
terminal handler.  Immutable after registration. -/
structure Route where
  method : Method
  pattern : List Seg
  middleware : List MwTag
  handler : HTag
deriving DecidableEq, Repr

/-- Embeds the route table of `src/unnamed/part_001` (lines 16-38), in
registration order.  `GET /customers` is registered twice: first with
`apiLimiter` (line 31), later with `verifyToken` (line 33). -/
def apiRoutes : List Route :=
  [ ⟨.POST, [.lit "orders"], [.apiLimiter], .createOrder⟩,
    ⟨.POST, [.lit "products"], [.apiLimiter], .createProduct⟩,
    ⟨.PUT, [.lit "products"], [.apiLimiter], .updateProduct⟩,
    ⟨.DELETE, [.lit "products", .param "id"], [.apiLimiter], .deleteProduct⟩,
    ⟨.GET, [.lit "products", .param "id"], [.apiLimiter], .getProduct⟩,
    ⟨.GET, [.lit "products"], [.apiLimiter], .getProducts⟩,
    ⟨.GET, [.lit "products", .lit "q", .param "term"], [.apiLimiter],
      .getProductsByTerm⟩,
    ⟨.POST, [.lit "customers"], [.apiLimiter], .createCustomer⟩,
    ⟨.PUT, [.lit "customers"], [.apiLimiter], .updateCustomer⟩,
    ⟨.DELETE, [.lit "customers", .param "id"], [.apiLimiter],
      .deleteCustomer⟩,
    ⟨.GET, [.lit "customers", .param "id"], [.apiLimiter], .getCustomer⟩,
    ⟨.GET, [.lit "customers"], [.apiLimiter], .getCustomers⟩,
    ⟨.GET, [.lit "customers", .lit "q", .param "term"], [.apiLimiter],
      .getCustomersByTerm⟩,
    ⟨.GET, [.lit "customers"], [.verifyToken], .getCustomers⟩,
    ⟨.POST, [.lit "users"], [], .createUser⟩,
    ⟨.POST, [.lit "login"], [], .login⟩,
    ⟨.GET, [.lit "logout"], [], .logout⟩ ]

/-- Whether one pattern segment accepts one concrete path segment. -/
def segAccepts : Seg → String → Bool
  | .lit s, seg => s == seg
  | .param _, _ => true

/-- Whether a pattern matches a concrete path, segmentwise and of equal
length ("matching is exact on method and literal segments"). -/
def patternMatches : List Seg → List String → Bool
  | [], [] => true
  | p :: ps, s :: ss => segAccepts p s && patternMatches ps ss
  | _, _ => false

/-- Modelled from the spec: Express dispatch picks the first registered
route whose method and pattern match ("first-registered-route-wins on
ambiguous overlapping patterns"). -/
def routeFor (m : Method) (path : List String) (routes : List Route) :
    Option Route :=
  routes.find? (fun r => decide (r.method = m) && patternMatches r.pattern path)

/-- Modelled from the spec: dispatch "executes middleware strictly in
registration order; any middleware may terminate the chain early by
producing a response directly instead of calling onward".  A middleware
is a function from the request to `Option` response: `some resp` short-
circuits the chain with `resp`, `none` passes the request onward.  The
returned flag records whether the terminal handler executed. -/
def runChain {α β : Type} (mws : List (α → Option β)) (h : α → β)
    (req : α) : β × Bool :=
  match mws with
  | [] => (h req, true)
  | mw :: rest =>
    match mw req with
    | some resp => (resp, false)
    | none => runChain rest h req

/-- The deployed rate-limiter middleware over a fixed limiter state:
denial short-circuits with the source's 429 message, allowance passes
the request through. -/
def limiterMiddleware (cfg : RateConfig) (m : WindowMap) :
    (String × Nat) → Option Response :=
  fun kn =>
    match (check cfg m kn.1 kn.2).1 with
    | .Allow => none
    | .Deny _ =>
      some ⟨429, .message "Too many requests, please try again after 3 minutes"⟩

/-- The first `GET /customers` registration of the source (line 31),
rate-limited. -/
def limiterCustomersRoute : Route :=
  ⟨.GET, [.lit "customers"], [.apiLimiter], .getCustomers⟩

/-- The second `GET /customers` registration of the source (line 33),
auth-protected. -/
def authCustomersRoute : Route :=
  ⟨.GET, [.lit "customers"], [.verifyToken], .getCustomers⟩

/-- A store with no records and no failure. -/
def emptyStore : Store := ⟨[], none⟩

/-- A store whose every call fails with an infrastructure error. -/
def failingStore : Store := ⟨[], some (.other 1001)⟩

/-- A sample record used to exercise the handlers. -/
def demoWidget : Product := ⟨5, "Widget", "d", 999, "Tools", "u"⟩

/-- A store holding exactly the sample record. -/
def demoStore : Store := ⟨[demoWidget], none⟩

/-- A sample create body with a key absent from `emptyStore`. -/
def demoBody : CreateBody := ⟨6, "Gadget", "d", 1299, "Tools", "u"⟩

/-- Limiter state of a client that has exhausted its window: window
started at 0, 11 requests counted. -/
def deniedState : WindowMap := [("client9", ⟨0, 11⟩)]

theorem lookup_setWin (m : WindowMap) (k : String) (w : Window) :
    List.lookup k (setWin m k w) = some w := by
  induction m with
  | nil => simp [setWin, List.lookup]
  | cons hd tl ih =>
    obtain ⟨k', w'⟩ := hd
    by_cases h : k' = k
    · simp [setWin, h, List.lookup]
    · have hne : (k == k') = false := beq_eq_false_iff_ne.mpr (Ne.symm h)
      simp [setWin, h, List.lookup, hne, ih]

theorem stateAfter_lookup (cfg : RateConfig) (key : String)
    (times : Nat → Nat) (hwin : ∀ j, times j < times 0 + cfg.windowMs) :
    ∀ n, List.lookup key (stateAfter cfg key times (n + 1)) =
      some ⟨times 0, n + 1⟩ := by
  intro n
  induction n with
  | zero => simp [stateAfter, check, List.lookup, lookup_setWin]
  | succ n ih =>
    have hlt := hwin (n + 1)
    rw [stateAfter, check, ih]
    have hcond : ¬ (times 0 + cfg.windowMs ≤ times (n + 1)) := by omega
    by_cases hc : cfg.max < n + 1 + 1 <;> simp [hcond, hc, lookup_setWin]

/-- Claim C1: in a run of requests from one client that all fall inside
the window opened by its first request, the `i`-th request is allowed
exactly when `i ≤ max`; with the source's `apiLimiter` configuration
(windowMs three minutes, max 10) requests 1-10 are allowed and request
11 is denied. -/
theorem rate_limit_at_most_max_per_window (cfg : RateConfig) (key : String)
    (times : Nat → Nat) (hmax : 1 ≤ cfg.max)
    (hwin : ∀ j, times j < times 0 + cfg.windowMs)
    (i : Nat) (hi : 1 ≤ i) :
    nthDecision cfg key times i = .Allow ↔ i ≤ cfg.max := by
  match i, hi with
  | 1, _ =>
    simp [nthDecision, stateAfter, check, List.lookup]
    omega
  | (n + 2), _ =>
    have hI := stateAfter_lookup cfg key times hwin n
    have hlt := hwin (n + 1)
    have h1 : n + 2 - 1 = n + 1 := by omega
    rw [nthDecision, h1, check, hI]
    have hcond : ¬ (times 0 + cfg.windowMs ≤ times (n + 1)) := by omega
    by_cases hc : cfg.max < n + 1 + 1
    · simp [hcond, hc]
    · simp [hcond, hc]
      omega

/-- Witness for C1 at the source's configuration: request 10 of a
same-window run is allowed, request 11 is not. -/
theorem rate_limit_at_most_max_per_window_witness :
    nthDecision apiLimiterCfg "client" (fun _ => 0) 10 = .Allow ∧
    nthDecision apiLimiterCfg "client" (fun _ => 0) 11 ≠ .Allow := by
  have hw : ∀ j : Nat, (fun _ : Nat => (0 : Nat)) j <
      (fun _ : Nat => (0 : Nat)) 0 + apiLimiterCfg.windowMs := by
    intro j
    show (0 : Nat) < 0 + apiLimiterCfg.windowMs
    decide
  constructor
  · exact (rate_limit_at_most_max_per_window apiLimiterCfg "client"
      (fun _ => 0) (by decide) hw 10 (by decide)).2 (by decide)
  · intro h
    have h2 := (rate_limit_at_most_max_per_window apiLimiterCfg "client"
      (fun _ => 0) (by decide) hw 11 (by decide)).1 h
    exact absurd h2 (by decide)

/-- Claim C5: a check finding no window for the client, or finding one
whose start lies a full window duration (or more) in the past, starts a
fresh window with count 1 and allows the request. -/
theorem rate_limit_window_reset (cfg : RateConfig) (m : WindowMap)
    (key : String) (now : Nat)
    (h : List.lookup key m = none ∨
      ∃ w, List.lookup key m = some w ∧ w.start + cfg.windowMs ≤ now) :
    (check cfg m key now).1 = .Allow ∧
    List.lookup key (check cfg m key now).2 = some ⟨now, 1⟩ := by
  rcases h with h | ⟨w, hw, hle⟩
  · simp [check, h, lookup_setWin]
  · simp [check, hw, hle, lookup_setWin]

/-- Witness for C5: the client of `deniedState` is denied inside its
window, and its next request at the window's end (start + 180000 ms) is
allowed again with a fresh window. -/
theorem rate_limit_window_reset_witness :
    (check apiLimiterCfg deniedState "client9" 100).1 ≠ .Allow ∧
    ((check apiLimiterCfg deniedState "client9" 180000).1 = .Allow ∧
      List.lookup "client9"
        (check apiLimiterCfg deniedState "client9" 180000).2 =
        some ⟨180000, 1⟩) := by
  refine ⟨by decide, ?_⟩
  exact rate_limit_window_reset apiLimiterCfg deniedState "client9" 180000
    (Or.inr ⟨⟨0, 11⟩, by decide, by decide⟩)

/-- Claim C4: dispatch of `GET /customers` selects the first-registered
route — the rate-limited one of line 31.  The later auth-protected
registration of line 33 is in the table, its method and pattern also
match, but it is never the dispatched route, so `GET /customers` never
requires authentication. -/
theorem duplicate_get_customers_first_route_wins :
    routeFor .GET ["customers"] apiRoutes = some limiterCustomersRoute ∧
    limiterCustomersRoute.middleware = [.apiLimiter] ∧
    authCustomersRoute ∈ apiRoutes ∧
    authCustomersRoute.method = .GET ∧
    patternMatches authCustomersRoute.pattern ["customers"] = true ∧
    routeFor .GET ["customers"] apiRoutes ≠ some authCustomersRoute := by
  decide

/-- Claim C9: if the terminal handler of a dispatched request executed
(the flag of `runChain` is true), then the response is the handler's
and every middleware of the route's chain ran through the request
without short-circuiting (each returned `none`). -/
theorem handler_reached_imp_middleware_passed {α β : Type}
    (mws : List (α → Option β)) (h : α → β) (req : α)
    (hrun : (runChain mws h req).2 = true) :
    (runChain mws h req).1 = h req ∧ ∀ mw ∈ mws, mw req = none := by
  induction mws with
  | nil => exact ⟨rfl, by simp⟩
  | cons mw rest ih =>
    cases hmw : mw req with
    | some resp =>
      rw [runChain] at hrun
      simp [hmw] at hrun
    | none =>
      rw [runChain] at hrun ⊢
      simp only [hmw] at hrun ⊢
      refine ⟨(ih hrun).1, ?_⟩
      intro mw' hmw'
      rcases List.mem_cons.mp hmw' with h1 | h1
      · rw [h1]; exact hmw
      · exact (ih hrun).2 mw' h1

/-- Witness for C9 on the deployed rate-limiter middleware: with a
fresh limiter state the handler runs, and the theorem yields that the
limiter passed the request through. -/
theorem handler_reached_imp_middleware_passed_witness :
    (runChain [limiterMiddleware apiLimiterCfg []]
      (fun _ => Response.mk 200 (.list [])) ("client", 0)).2 = true ∧
    limiterMiddleware apiLimiterCfg [] ("client", 0) = none := by
  refine ⟨by decide, ?_⟩
  exact (handler_reached_imp_middleware_passed
      [limiterMiddleware apiLimiterCfg []]
      (fun _ => Response.mk 200 (.list [])) ("client", 0) (by decide)).2
      (limiterMiddleware apiLimiterCfg []) (by simp)

/-- Claim C2 (failing input): an update and a delete keyed by an id
absent from the store are answered with 500 carrying the store's
NotFound error, not with 404 — both handlers catch every store error
alike. -/
theorem update_delete_absent_key_gives_500_not_404 :
    updateProduct ⟨"999", "n", "d", 1, "c", "u"⟩ emptyStore =
      .ok (⟨500, .err .notFound⟩, emptyStore) ∧
    deleteProduct "999" emptyStore =
      .ok (⟨500, .err .notFound⟩, emptyStore) := by
  decide

/-- Claim C3 (failing input): a store failure in `getProducts` escapes
the handler (there is no try/catch around its `findMany`), while the
same failure in `createProduct` is caught and answered with 500. -/
theorem getAll_store_failure_escapes_handler :
    getProducts failingStore = .error (.other 1001) ∧
    createProduct ⟨7, "W", "d", 9, "T", "u"⟩ failingStore =
      .ok (⟨500, .err (.other 1001)⟩, failingStore) := by
  decide

theorem listHasPre_iff (pat : List Char) :
    ∀ l, listHasPre pat l = true ↔ ∃ t, l = pat ++ t := by
  induction pat with
  | nil => intro l; simp [listHasPre]
  | cons c cs ih =>
    intro l
    cases l with
    | nil => simp [listHasPre]
    | cons d ds =>
      simp only [listHasPre, Bool.and_eq_true, beq_iff_eq, ih,
        List.cons_append, List.cons.injEq]
      constructor
      · rintro ⟨rfl, t, rfl⟩
        exact ⟨t, rfl, rfl⟩
      · rintro ⟨t, rfl, rfl⟩
        exact ⟨rfl, t, rfl⟩

theorem hasSub_iff (pat : List Char) :
    ∀ l, hasSub pat l = true ↔ ∃ u t, l = u ++ pat ++ t := by
  intro l
  induction l with
  | nil =>
    rw [hasSub, listHasPre_iff]
    constructor
    · rintro ⟨t, ht⟩
      exact ⟨[], t, by simpa using ht⟩
    · rintro ⟨u, t, ht⟩
      refine ⟨t, ?_⟩
      rcases List.append_eq_nil.mp (ht.symm) with ⟨h1, _⟩
      rcases List.append_eq_nil.mp h1 with ⟨rfl, rfl⟩
      simpa using ht
  | cons c cs ih =>
    rw [hasSub]
    simp only [Bool.or_eq_true, listHasPre_iff, ih]
    constructor
    · rintro (⟨t, ht⟩ | ⟨u, t, ht⟩)
      · exact ⟨[], t, by simpa using ht⟩
      · exact ⟨c :: u, t, by simp [ht]⟩
    · rintro ⟨u, t, ht⟩
      cases u with
      | nil => exact Or.inl ⟨t, by simpa using ht⟩
      | cons x xs =>
        right
        have hx : c = x ∧ cs = xs ++ pat ++ t := by simpa using ht
        exact ⟨xs, t, hx.2⟩

theorem strContains_iff (s term : String) :
    strContains s term = true ↔
      ∃ u t, s.toList = u ++ term.toList ++ t := by
  rw [strContains, hasSub_iff]

/-- Claim C6: `getProduct` answers 404 with the source's message when
no stored record carries the requested numeric key, and 200 with the
stored record when one does. -/
theorem getOne_found_or_404 (id : String) (k : Int) (st : Store)
    (hf : st.fail = none) (hk : jsNumber id = some k) :
    ((∀ p ∈ st.records, p.product_id ≠ k) →
      getProduct id st =
        .ok (⟨404, .message "Product not found!"⟩, st)) ∧
    (∀ p, st.records.find? (fun q => q.product_id == k) = some p →
      getProduct id st = .ok (⟨200, .record p⟩, st)) := by
  constructor
  · intro habs
    have hnone : st.records.find? (fun q => q.product_id == k) = none := by
      rw [List.find?_eq_none]
      intro x hx
      simpa using habs x hx
    simp [getProduct, Store.findUnique, hf, hk, hnone]
  · intro p hp
    simp [getProduct, Store.findUnique, hf, hk, hp]

/-- Witness for C6 on a one-record store: key 9 is absent and answered
404, key 5 is present and answered 200 with the record. -/
theorem getOne_found_or_404_witness :
    getProduct "9" demoStore =
      .ok (⟨404, .message "Product not found!"⟩, demoStore) ∧
    getProduct "5" demoStore =
      .ok (⟨200, .record demoWidget⟩, demoStore) := by
  constructor
  · exact (getOne_found_or_404 "9" 9 demoStore rfl (by decide)).1 (by decide)
  · exact (getOne_found_or_404 "5" 5 demoStore rfl (by decide)).2
      demoWidget (by decide)

/-- Claim C7: the search result is exactly the stored records whose
name or category contains the term as a contiguous substring; a
non-empty result is answered 200 as a list, an empty one 404 with the
source's message rather than an empty list. -/
theorem search_by_term_exact (term : String) (st : Store)
    (hf : st.fail = none) :
    (∀ p, p ∈ st.records.filter (productMatches term) ↔
      p ∈ st.records ∧
        ((∃ u t, p.name.toList = u ++ term.toList ++ t) ∨
         (∃ u t, p.category.toList = u ++ term.toList ++ t))) ∧
    (st.records.filter (productMatches term) = [] →
      getProductsByTerm term st =
        .ok (⟨404, .message "Product not found!"⟩, st)) ∧
    (∀ l, st.records.filter (productMatches term) = l → l ≠ [] →
      getProductsByTerm term st = .ok (⟨200, .list l⟩, st)) := by
  refine ⟨?_, ?_, ?_⟩
  · intro p
    rw [List.mem_filter]
    simp [productMatches, strContains_iff]
  · intro hemp
    simp [getProductsByTerm, Store.findManyByTerm, hf, hemp]
  · intro l hl hne
    cases l with
    | nil => exact absurd rfl hne
    | cons x xs =>
      simp [getProductsByTerm, Store.findManyByTerm, hf, hl]

/-- Witness for C7: the term "idge" matches the "Widget" record and is
answered 200 with the singleton list; the term "zzz" matches nothing
and is answered 404. -/
theorem search_by_term_exact_witness :
    getProductsByTerm "idge" demoStore =
      .ok (⟨200, .list [demoWidget]⟩, demoStore) ∧
    getProductsByTerm "zzz" demoStore =
      .ok (⟨404, .message "Product not found!"⟩, demoStore) := by
  constructor
  · exact (search_by_term_exact "idge" demoStore rfl).2.2 [demoWidget]
      (by decide) (by decide)
  · exact (search_by_term_exact "zzz" demoStore rfl).2.1 (by decide)

/-- The store after a successful create: the new record appended. -/
def afterCreate (b : CreateBody) (st : Store) : Store :=
  { st with records := st.records ++ [mkProduct b] }

/-- Claim C8: creating a record with a key fresh for the store answers
200 with the created record, and `getProduct` on that key against the
resulting store answers 200 with the very same record (create/getOne
round-trip; the store assigns no further fields since the source sends
`product_id` itself). -/
theorem create_then_getOne_roundtrip (b : CreateBody) (st : Store)
    (idStr : String) (hf : st.fail = none)
    (hfresh : ∀ q ∈ st.records, q.product_id ≠ b.product_id)
    (hid : jsNumber idStr = some b.product_id) :
    createProduct b st =
      .ok (⟨200, .record (mkProduct b)⟩, afterCreate b st) ∧
    getProduct idStr (afterCreate b st) =
      .ok (⟨200, .record (mkProduct b)⟩, afterCreate b st) := by
  have hnotex : ¬ ∃ x ∈ st.records, x.product_id = b.product_id := by
    rintro ⟨x, hx, hxe⟩
    exact hfresh x hx hxe
  have hnone : List.find?
      (fun p => p.product_id == b.product_id) st.records = none := by
    rw [List.find?_eq_none]
    intro x hx
    simpa using hfresh x hx
  constructor
  · simp [createProduct, Store.create, hf, mkProduct, hnotex, afterCreate]
  · simp [getProduct, Store.findUnique, afterCreate, hf, hid, hnone,
      mkProduct]

/-- Witness for C8: creating the sample body in the empty store and
reading key 6 back returns the created record. -/
theorem create_then_getOne_roundtrip_witness :
    createProduct demoBody emptyStore =
      .ok (⟨200, .record (mkProduct demoBody)⟩,
        afterCreate demoBody emptyStore) ∧
    getProduct "6" (afterCreate demoBody emptyStore) =
      .ok (⟨200, .record (mkProduct demoBody)⟩,
        afterCreate demoBody emptyStore) :=
  create_then_getOne_roundtrip demoBody emptyStore "6" rfl
    (by decide) (by decide)

/-- Claim C10: a non-numeric `:id` segment (its `Number` coercion is
`NaN`) makes `getProduct` and `deleteProduct` answer 500 with the store
error — on every store, so the 404 not-found branch is never reached:
the failure is the store's key-validation error, or the store's own
failure when one is pending. -/
theorem non_numeric_id_yields_500 (s : String) (st : Store)
    (hs : jsNumber s = none) :
    getProduct s st =
      .ok (⟨500, .err (st.fail.getD .badKey)⟩, st) ∧
    deleteProduct s st =
      .ok (⟨500, .err (st.fail.getD .badKey)⟩, st) := by
  cases hfail : st.fail with
  | some e =>
    simp [getProduct, deleteProduct, Store.findUnique, Store.delete,
      hs, hfail]
  | none =>
    simp [getProduct, deleteProduct, Store.findUnique, Store.delete,
      hs, hfail]

/-- Witness for C10: the segment "abc" coerces to `NaN` and both
handlers answer 500 with the key-validation error on the sample
store. -/
theorem non_numeric_id_yields_500_witness :
    getProduct "abc" demoStore =
      .ok (⟨500, .err .badKey⟩, demoStore) ∧
    deleteProduct "abc" demoStore =
      .ok (⟨500, .err .badKey⟩, demoStore) := by
  have h := non_numeric_id_yields_500 "abc" demoStore (by decide)
  simpa [demoStore] using h
